import Mathlib

/-!
Shallow embedding of the `vst_window` crate (cross-platform VST editor
window creation and event polling) for checking its natural-language
specification.

Every definition below is translated from a concrete item of the Rust
source tree, named in its doc comment.  Machine integers are modelled as
`Int`/`Nat` with explicit bounds where the source converts between widths;
the `f32`/`f64` coordinate arithmetic is modelled over `ℚ` (exact division,
which represents the normalization `offset / size` the source computes);
fallible code returns `Except`/`Option`.
-/

namespace VstWindow

/-- `src/event.rs`: `MouseButton` — one of the buttons on a mouse. -/
inductive MouseButton where
  | left
  | right
  | middle
deriving DecidableEq, Repr

/-- `src/event.rs`: `WindowEvent`.  `cursorMovement x y` carries coordinates
scaled to the bounds of the window (origin top-left); coordinates are
modelled over `ℚ`. -/
inductive WindowEvent where
  | cursorMovement (x y : ℚ)
  | mouseClick (button : MouseButton)
  | mouseRelease (button : MouseButton)
deriving DecidableEq, Repr

/-- `src/lib.rs`: `enum Backend` — the platform implementation in use. -/
inductive Backend where
  | appKit
  | win32
  | x11
deriving DecidableEq, Repr

/-- The compilation targets distinguished by the `cfg` attributes in
`src/lib.rs` (the BSDs behave exactly like `linux` there and are collapsed
into `unixLike`). -/
inductive TargetOs where
  | unixLike
  | macos
  | windows
deriving DecidableEq, Repr

/-- `src/lib.rs` lines 23-34: the `CURRENT_BACKEND` constant, as selected by
the three `cfg` blocks.  The source assigns `Backend::X11` under
`target_os = "linux"`/BSD, `Backend::X11` under `target_os = "macos"`, and
`Backend::X11` under `target_os = "windows"`. -/
def CURRENT_BACKEND : TargetOs → Backend
  | .unixLike => .x11
  | .macos => .x11
  | .windows => .x11

/-- The source of a `SetupError` (`src/lib.rs` stores a boxed
`std::error::Error`; the concrete source types constructed by the crate are
`InvalidParentError`, `InvalidSizeError`, and boxed strings/native errors). -/
inductive ErrSource where
  | invalidParent (desc : String)
  | invalidSize (size : Int × Int)
  | nativeMsg (msg : String)
deriving DecidableEq, Repr

/-- `src/lib.rs`: `struct SetupError { source, backend, context }`. -/
structure SetupError where
  source : ErrSource
  backend : Backend
  context : Option String
deriving DecidableEq, Repr

/-- `src/lib.rs`: `SetupError::new` — attaches `CURRENT_BACKEND` of the
compilation target and no context. -/
def SetupError.new (os : TargetOs) (source : ErrSource) : SetupError :=
  ⟨source, CURRENT_BACKEND os, none⟩

/-- `src/lib.rs`: `SetupError::with_context`. -/
def SetupError.withContext (os : TargetOs) (source : ErrSource)
    (context : String) : SetupError :=
  ⟨source, CURRENT_BACKEND os, some context⟩

/-- `src/lib.rs`: `InvalidParentError::new` — records `"null"` for a null
pointer and a debug rendering of the pointer otherwise.  Pointers are
modelled as `Nat` with `0` for null. -/
def InvalidParentError.new (parent : Nat) : ErrSource :=
  if parent = 0 then .invalidParent "null"
  else .invalidParent (toString parent)

/-! ## Coordinate normalization (Event Capture translation rules) -/

/-- `src/platform/unix/event_source.rs` lines 45-49: translation of an X11
`MotionNotify` into `CursorMovement(event_x / width, event_y / height)`. -/
def x11CursorEvent (size_xy : Int × Int) (event_x event_y : Int) : WindowEvent :=
  .cursorMovement ((event_x : ℚ) / (size_xy.1 : ℚ)) ((event_y : ℚ) / (size_xy.2 : ℚ))

/-- `src/platform/windows/event_source.rs` lines 121-129: the `WM_MOUSEMOVE`
arm of `wnd_proc`, `CursorMovement(x_pos / width, y_pos / height)`. -/
def win32CursorEvent (size_xy : Int × Int) (x_pos y_pos : Int) : WindowEvent :=
  .cursorMovement ((x_pos : ℚ) / (size_xy.1 : ℚ)) ((y_pos : ℚ) / (size_xy.2 : ℚ))

/-- `src/platform/macos/event_proxy_class.rs` lines 279-297
(`send_cursor_movement_get_delegate`): the view-local location `loc` has the
AppKit bottom-left origin, and the sent event is
`CursorMovement(loc.x / width, 1 - loc.y / height)`. -/
def macosCursorEvent (size_xy : Int × Int) (loc : ℚ × ℚ) : WindowEvent :=
  .cursorMovement (loc.1 / (size_xy.1 : ℚ)) (1 - loc.2 / (size_xy.2 : ℚ))

/-! ## X11 event source (`src/platform/unix/event_source.rs`) -/

/-- The X11 notification kinds distinguished by the `match` in
`EventSourceImpl::poll_event` (`src/platform/unix/event_source.rs`
lines 44-70).  `other` stands for every arm caught by `_ => continue`
(Expose, KeyPress, ...). -/
inductive X11Event where
  | motionNotify (event_x event_y : Int)
  | buttonPress (detail : Nat)
  | buttonRelease (detail : Nat)
  | other
deriving DecidableEq, Repr

/-- `src/platform/unix/event_source.rs` lines 78-86:
`convert_mouse_button_detail` — X11 button details 1/2/3 map to
Left/Middle/Right, everything else to `None`. -/
def convert_mouse_button_detail (detail : Nat) : Option MouseButton :=
  match detail with
  | 1 => some .left
  | 2 => some .middle
  | 3 => some .right
  | _ => none

/-- The per-notification translation performed by the `match` inside
`EventSourceImpl::poll_event`: `some` for a translatable notification,
`none` for one the loop skips with `continue`. -/
def translateX11 (size_xy : Int × Int) : X11Event → Option WindowEvent
  | .motionNotify ex ey => some (x11CursorEvent size_xy ex ey)
  | .buttonPress d => (convert_mouse_button_detail d).map .mouseClick
  | .buttonRelease d => (convert_mouse_button_detail d).map .mouseRelease
  | .other => none

/-- `src/platform/unix/event_source.rs` lines 26-75:
`EventSourceImpl::poll_event`.  The XCB connection's buffered notification
stream is modelled as a list of `poll_for_event` outcomes, oldest first
(`Except.error` for `Err(_)`, `Except.ok` for `Ok(Some(event))`; an empty
list stands for `Ok(None)`).  The loop: an error is logged and yields
`none`; a translatable notification is returned; an untranslatable one is
skipped and the loop continues; an empty buffer yields `none`.  The second
component is the rest of the connection buffer after the call. -/
def pollEventX11 (size_xy : Int × Int) :
    List (Except String X11Event) → Option WindowEvent × List (Except String X11Event)
  | [] => (none, [])
  | .error _ :: rest => (none, rest)
  | .ok ev :: rest =>
    match translateX11 size_xy ev with
    | some w => (some w, rest)
    | none => pollEventX11 size_xy rest

/-- Helper for stating properties of `pollEventX11`: `true` on an `Ok`
outcome of `poll_for_event`. -/
def isOkOutcome : Except String X11Event → Bool
  | .ok _ => true
  | .error _ => false

/-- Helper: the event of an `Ok` outcome. -/
def okEvent : Except String X11Event → Option X11Event
  | .ok ev => some ev
  | .error _ => none

/-! ## Event delivery channel (`std::sync::mpsc` as used by the Windows and
macOS backends) -/

/-- The `mpsc` channel pairing one `Sender<WindowEvent>` with one
`Receiver<WindowEvent>`: a FIFO buffer, oldest event first. -/
structure Channel where
  buffer : List WindowEvent
deriving DecidableEq, Repr

/-- A channel with nothing buffered. -/
def Channel.empty : Channel := ⟨[]⟩

/-- `Sender::send`: appends at the back of the FIFO buffer. -/
def Channel.send (c : Channel) (e : WindowEvent) : Channel :=
  ⟨c.buffer ++ [e]⟩

/-- `Receiver::try_recv`: pops the oldest buffered event, or reports the
channel empty, never blocking.  (The `Disconnected` arm of the source is
`unreachable!` while the window — and hence the sender — is alive, which is
the situation modelled here.) -/
def Channel.tryRecv (c : Channel) : Option WindowEvent × Channel :=
  match c.buffer with
  | [] => (none, c)
  | e :: rest => (some e, ⟨rest⟩)

/-- `src/platform/windows/event_source.rs` lines 52-60
(`EventSource::poll_event`) and `src/platform/macos/mod.rs` lines 71-79
(`EditorWindowImpl::poll_event`): both are exactly `try_recv` on the
channel. -/
def pollEventChan (c : Channel) : Option WindowEvent × Channel :=
  c.tryRecv

/-- A host drain loop: call `poll_event` repeatedly until it returns `none`,
collecting the returned events in order.  The fuel argument bounds the
number of calls; `drainChan` supplies enough fuel to empty the buffer. -/
def drainChanAux : Nat → Channel → List WindowEvent
  | 0, _ => []
  | fuel + 1, c =>
    match pollEventChan c with
    | (none, _) => []
    | (some e, c') => e :: drainChanAux fuel c'

/-- Drain a channel completely through `poll_event`. -/
def drainChan (c : Channel) : List WindowEvent :=
  drainChanAux c.buffer.length c

/-! ## Windows window procedure (`src/platform/windows/event_source.rs`) -/

/-- Win32 message ids, values from `winapi::um::winuser` as matched in
`wnd_proc`. -/
def WM_MOUSEMOVE : Nat := 0x0200

/-- Win32 `WM_LBUTTONDOWN`. -/
def WM_LBUTTONDOWN : Nat := 0x0201

/-- Win32 `WM_LBUTTONUP`. -/
def WM_LBUTTONUP : Nat := 0x0202

/-- Win32 `WM_RBUTTONDOWN`. -/
def WM_RBUTTONDOWN : Nat := 0x0204

/-- Win32 `WM_RBUTTONUP`. -/
def WM_RBUTTONUP : Nat := 0x0205

/-- Win32 `WM_MBUTTONDOWN`. -/
def WM_MBUTTONDOWN : Nat := 0x0207

/-- Win32 `WM_MBUTTONUP`. -/
def WM_MBUTTONUP : Nat := 0x0208

/-- `src/platform/windows/event_source.rs` lines 95-176: the events that one
invocation of `wnd_proc` sends over the channel, as a function of the
message id `umsg` and the cursor position packed in `lparam`
(`GET_X_LPARAM`/`GET_Y_LPARAM`).  Every message other than the seven
handled ones falls into `_ => ()` and sends nothing (the call is forwarded
to `DefWindowProcW`, which enqueues no `WindowEvent`). -/
def wndProcEvents (size_xy : Int × Int) (umsg : Nat) (lparam_xy : Int × Int) :
    List WindowEvent :=
  if umsg = WM_MOUSEMOVE then [win32CursorEvent size_xy lparam_xy.1 lparam_xy.2]
  else if umsg = WM_LBUTTONDOWN then [.mouseClick .left]
  else if umsg = WM_LBUTTONUP then [.mouseRelease .left]
  else if umsg = WM_RBUTTONDOWN then [.mouseClick .right]
  else if umsg = WM_RBUTTONUP then [.mouseRelease .right]
  else if umsg = WM_MBUTTONDOWN then [.mouseClick .middle]
  else if umsg = WM_MBUTTONUP then [.mouseRelease .middle]
  else []

/-- Run `wnd_proc` over a sequence of native notifications in their arrival
order, starting from channel state `c`. -/
def runWndProc (size_xy : Int × Int) (c : Channel)
    (msgs : List (Nat × Int × Int)) : Channel :=
  match msgs with
  | [] => c
  | (umsg, lp) :: rest =>
    runWndProc size_xy
      ((wndProcEvents size_xy umsg lp).foldl Channel.send c) rest

/-! ## macOS event proxy view (`src/platform/macos/event_proxy_class.rs`) -/

/-- AppKit button numbers as routed to the `EventProxyView` methods
registered in `src/platform/macos/event_proxy_class.rs` lines 110-143.
Modelled from the spec (the routing itself is AppKit behaviour, not crate
code): the primary button invokes `mouseDown:`/`mouseUp:`, the secondary
button invokes `rightMouseDown:`/`rightMouseUp:`, and every other button
(`buttonNumber` 2, 3, 4, ...) invokes `otherMouseDown:`/`otherMouseUp:`. -/
def macosButtonOf (buttonNumber : Nat) : MouseButton :=
  if buttonNumber = 0 then .left
  else if buttonNumber = 1 then .right
  else .middle

/-- One native notification delivered to the `EventProxyView` on macOS:
a button press or release carrying the AppKit button number and the
view-local location (bottom-left origin), or a pointer move/drag. -/
inductive MacosInput where
  | down (buttonNumber : Nat) (loc : ℚ × ℚ)
  | up (buttonNumber : Nat) (loc : ℚ × ℚ)
  | moved (loc : ℚ × ℚ)
deriving DecidableEq, Repr

/-- `src/platform/macos/event_proxy_class.rs` lines 233-277: the events one
handler invocation sends, in order.  Every `mouse*Down:`/`mouse*Up:` handler
first calls `send_cursor_movement_get_delegate` (sending the
`CursorMovement` for the event's location) and then sends the
`MouseClick`/`MouseRelease`; `mouseMoved:`/`mouseDragged:` send only the
`CursorMovement`. -/
def macosHandlerOutput (size_xy : Int × Int) : MacosInput → List WindowEvent
  | .down n loc => [macosCursorEvent size_xy loc, .mouseClick (macosButtonOf n)]
  | .up n loc => [macosCursorEvent size_xy loc, .mouseRelease (macosButtonOf n)]
  | .moved loc => [macosCursorEvent size_xy loc]

/-- The queue contents after the `EventProxyView` processes a sequence of
native notifications (macOS delivers them one at a time on the main thread,
so the channel receives the concatenation of the per-handler outputs in
notification order). -/
def runMacos (size_xy : Int × Int) (inputs : List MacosInput) : List WindowEvent :=
  match inputs with
  | [] => []
  | inp :: rest => macosHandlerOutput size_xy inp ++ runMacos size_xy rest

/-- `true` on a button transition event. -/
def isButtonEvent : WindowEvent → Bool
  | .mouseClick _ => true
  | .mouseRelease _ => true
  | .cursorMovement _ _ => false

/-- `true` on a cursor movement event. -/
def isCursorEvent : WindowEvent → Bool
  | .cursorMovement _ _ => true
  | _ => false

/-! ## Window size validation (`src/platform/unix/window.rs`) -/

/-- `i32::try_into::<u16>()`: succeeds exactly on `0 ..= 65535`. -/
def i32ToU16 (n : Int) : Option Nat :=
  if 0 ≤ n ∧ n ≤ 65535 then some n.toNat else none

/-- `src/platform/unix/window.rs` lines 53-64: the size conversion at the
top of `ChildWindow::build`.  Each `i32` coordinate is converted to `u16`;
on failure the build returns `SetupError::new(InvalidSizeError(size_xy))`,
which carries exactly the requested size (`src/lib.rs` lines 148-162:
`struct InvalidSizeError((i32, i32))` has no further field). -/
def childWindowValidateSize (os : TargetOs) (size_xy : Int × Int) :
    Except SetupError (Nat × Nat) :=
  match i32ToU16 size_xy.1 with
  | none => .error (SetupError.new os (.invalidSize size_xy))
  | some w =>
    match i32ToU16 size_xy.2 with
    | none => .error (SetupError.new os (.invalidSize size_xy))
    | some h => .ok (w, h)

/-! ## Invalid-parent handling -/

/-- Error kinds of the per-platform `Error` taxonomy used by the macOS and
Windows build paths (`crate::Error::Other { .. }`) and by the spec's
taxonomy (§7): InvalidParent, InvalidWindowSize, ConnectionFailure,
Other. -/
inductive ErrorKind where
  | invalidParent
  | invalidWindowSize
  | connectionFailure
  | otherKind
deriving DecidableEq, Repr

/-- A platform build error: its taxonomy kind, its message, and the backend
name it carries. -/
structure PlatformError where
  kind : ErrorKind
  msg : String
  backendName : String
deriving DecidableEq, Repr

/-- `src/platform/macos/mod.rs` lines 42-49 (`EditorWindowImpl::build`): a
null parent is rejected with `Error::Other { source: anyhow!("invalid
parent (null pointer)"), backend: Backend::Cocoa }` — an Other-kind error,
not an InvalidParent-kind one.  A non-null parent passes the check (the
pointer is then used unchecked). -/
def macosBuildParentCheck (parent : Nat) : Except PlatformError Unit :=
  if parent = 0 then
    .error ⟨.otherKind, "invalid parent (null pointer)", "Cocoa"⟩
  else .ok ()

/-- `src/platform/windows/window.rs` lines 156-172: when `CreateWindowExW`
fails with `ERROR_INVALID_WINDOW_HANDLE`, the build returns `Error::Other {
source: anyhow!("invalid parent hwnd supplied"), backend:
Backend::WinApi }` — again an Other-kind error. -/
def windowsBuildParentError : PlatformError :=
  ⟨.otherKind, "invalid parent hwnd supplied", "WinApi"⟩

/-- X11 protocol error kinds distinguished by `ChildWindow::build`
(`src/platform/unix/window.rs` lines 137-144): a `Window`-kind error versus
any other kind. -/
inductive X11ErrorKind where
  | window
  | otherX11Error
deriving DecidableEq, Repr

/-- An X11 protocol error event as inspected by `ChildWindow::build`: the
16-bit sequence number it refers to, and its kind. -/
structure X11ProtocolError where
  sequence : Nat
  errorKind : X11ErrorKind
deriving DecidableEq, Repr

/-- `src/platform/unix/window.rs` lines 137-144: classification of an X11
protocol error received after `create_window`.  When the error's sequence
number equals the low 16 bits of the `create_window` request's sequence
number and its kind is `Window`, the build returns
`SetupError::new(InvalidParentError::new(parent))`; other errors map to
generic boxed-message errors (lines 145-162). -/
def unixClassifyBuildError (parent : Nat) (createWindowSeq : Nat)
    (err : X11ProtocolError) : SetupError :=
  if err.sequence = createWindowSeq % 65536 ∧ err.errorKind = .window then
    SetupError.new .unixLike (InvalidParentError.new parent)
  else
    SetupError.new .unixLike (.nativeMsg "request failed")

/-! ## Shared window-class token (`src/platform/windows/window.rs`) -/

/-- The process-wide state of the lazily registered Win32 window class:
`live` models the strong count of `Arc<VstWindowClass>` references held by
open windows (the `Mutex<Weak<VstWindowClass>>` upgrades successfully iff
`live > 0`), `registered` whether the class atom is currently registered,
and `regCount`/`unregCount` count the `RegisterClassExW` and
`UnregisterClassW` calls made so far. -/
structure ClassState where
  live : Nat
  registered : Bool
  regCount : Nat
  unregCount : Nat
deriving DecidableEq, Repr

/-- The state before any window is opened: no live reference, nothing
registered. -/
def ClassState.initial : ClassState := ⟨0, false, 0, 0⟩

/-- `src/platform/windows/window.rs` lines 196-212 (`get_window_class`,
claim-cited lines 129-145 of that file): under the mutex, upgrade the
stored `Weak`; on success share the existing `Arc` (no new registration),
otherwise create a fresh `VstWindowClass` (one `RegisterClassExW` call) and
store a new `Weak` to it. -/
def getWindowClass (s : ClassState) : ClassState :=
  if 0 < s.live then { s with live := s.live + 1 }
  else { live := 1, registered := true,
         regCount := s.regCount + 1, unregCount := s.unregCount }

/-- `impl Drop for VstWindowClass` (`src/platform/windows/window.rs`
lines 245-258, claim-cited lines 178-191): dropping a window's
`Arc<VstWindowClass>` decrements the strong count; when the last reference
drops, `VstWindowClass::drop` runs and calls `UnregisterClassW` once. -/
def dropWindowClassRef (s : ClassState) : ClassState :=
  match s.live with
  | 0 => s
  | 1 => { live := 0, registered := false,
           regCount := s.regCount, unregCount := s.unregCount + 1 }
  | n + 2 => { s with live := n + 1 }

/-- Open `n` windows (each build calls `get_window_class`). -/
def buildN : Nat → ClassState → ClassState
  | 0, s => s
  | n + 1, s => buildN n (getWindowClass s)

/-- Tear down `n` windows (each drop releases its class reference). -/
def dropN : Nat → ClassState → ClassState
  | 0, s => s
  | n + 1, s => dropN n (dropWindowClassRef s)

/-! ## Teardown order (`src/platform/mod.rs`, `src/platform/windows/mod.rs`)

Rust drops the fields of a struct (tuple structs included) in declaration
order; each resource release below is listed in the order the drop glue
performs it. -/

/-- The two resource classes whose release order the teardown contract is
about. -/
inductive Res where
  | eventCapture
  | windowBackend
deriving DecidableEq, Repr

/-- Resources released by dropping a platform `EditorWindowImpl` window
type (`src/platform/unix/window.rs` `ChildWindow::drop` destroys the X11
window; `src/platform/windows/window.rs` `EditorWindowImpl::drop` calls
`DestroyWindow`; `src/platform/macos/window.rs` `EditorWindowImpl::drop`
releases `ns_window` and `ns_view`): all window-backend resources. -/
def editorWindowImplReleases : List Res := [.windowBackend]

/-- Resources released by dropping a platform `EventSourceImpl`
(`src/platform/windows/event_source.rs` lines 63-87 `EventSource::drop`
clears the `GWLP_USERDATA` back-reference and frees the sender;
`src/platform/macos/event_source.rs` `EventSourceImpl::drop` releases the
event subview holding the delegate): all event-capture resources. -/
def eventSourceImplReleases : List Res := [.eventCapture]

/-- `src/platform/mod.rs` line 81:
`pub struct EditorWindow(EditorWindowImpl, EventSourceImpl);` — the drop
glue drops field 0 (the window implementation) first, then field 1 (the
event source), so the facade's release order is the window-backend
releases followed by the event-capture releases. -/
def editorWindowDropOrder : List Res :=
  editorWindowImplReleases ++ eventSourceImplReleases

/-- `src/platform/windows/mod.rs` lines 38-41:
`struct EditorWindowImpl { event_source: EventSource, // drop first
window: ChildWindow, // drop second }` — this composite releases event
capture first, then the window backend, as its comments document. -/
def windowsCompositeDropOrder : List Res :=
  eventSourceImplReleases ++ editorWindowImplReleases

/-! ## Helper lemmas -/

/-- Draining a channel through `poll_event` returns exactly the buffered
events, oldest first. -/
lemma drainChanAux_buffer (buf : List WindowEvent) :
    drainChanAux buf.length ⟨buf⟩ = buf := by
  induction buf with
  | nil => rfl
  | cons e rest ih =>
    simp only [List.length_cons, drainChanAux, pollEventChan, Channel.tryRecv]
    exact congrArg (e :: ·) ih

/-- `drainChan` returns the buffer. -/
lemma drainChan_eq_buffer (c : Channel) : drainChan c = c.buffer := by
  cases c with
  | mk buf => exact drainChanAux_buffer buf

/-- Folding `send` over a list of events appends them to the buffer in
order. -/
lemma foldl_send_buffer (evs : List WindowEvent) (c : Channel) :
    (evs.foldl Channel.send c).buffer = c.buffer ++ evs := by
  induction evs generalizing c with
  | nil => simp
  | cons e rest ih =>
    simp only [List.foldl_cons, ih, Channel.send]
    simp

/-- Running the window procedure over a sequence of native messages appends
the per-message translations to the channel in arrival order. -/
lemma runWndProc_buffer (size_xy : Int × Int) (c : Channel)
    (msgs : List (Nat × Int × Int)) :
    (runWndProc size_xy c msgs).buffer =
      c.buffer ++ msgs.flatMap (fun m => wndProcEvents size_xy m.1 m.2) := by
  induction msgs generalizing c with
  | nil => simp [runWndProc]
  | cons m rest ih =>
    simp only [runWndProc, List.flatMap_cons, ih, foldl_send_buffer]
    simp

/-! ## Claim theorems -/

/-- Claim C1: on every backend, a native pointer position translates to
`CursorMovement(x, y)` with `x` the horizontal offset from the window's
left edge divided by the width `w` and `y` the vertical offset from the top
edge divided by the height `h`.  On X11 and Win32 the native position
`(event_x, event_y)` is already the offset from the top-left corner; on
macOS the native view-local origin is bottom-left, so the offset from the
top edge is `h - loc.y`, and the flipped formula `1 - loc.y / h` equals
`(h - loc.y) / h`.  In particular, for a window of size `(300, 200)` the
top-left corner maps to `CursorMovement(0, 0)` and the bottom-right corner
to `CursorMovement(1, 1)` on all three backends. -/
theorem cursor_normalization (size_xy : Int × Int) (ex ey : Int) (loc : ℚ × ℚ)
    (hh : (size_xy.2 : ℚ) ≠ 0) :
    x11CursorEvent size_xy ex ey =
      .cursorMovement ((ex : ℚ) / (size_xy.1 : ℚ)) ((ey : ℚ) / (size_xy.2 : ℚ)) ∧
    win32CursorEvent size_xy ex ey =
      .cursorMovement ((ex : ℚ) / (size_xy.1 : ℚ)) ((ey : ℚ) / (size_xy.2 : ℚ)) ∧
    macosCursorEvent size_xy loc =
      .cursorMovement (loc.1 / (size_xy.1 : ℚ))
        (((size_xy.2 : ℚ) - loc.2) / (size_xy.2 : ℚ)) ∧
    x11CursorEvent (300, 200) 0 0 = .cursorMovement 0 0 ∧
    x11CursorEvent (300, 200) 300 200 = .cursorMovement 1 1 ∧
    win32CursorEvent (300, 200) 0 0 = .cursorMovement 0 0 ∧
    win32CursorEvent (300, 200) 300 200 = .cursorMovement 1 1 ∧
    macosCursorEvent (300, 200) (0, 200) = .cursorMovement 0 0 ∧
    macosCursorEvent (300, 200) (300, 0) = .cursorMovement 1 1 := by
  refine ⟨rfl, rfl, ?_, ?_, ?_, ?_, ?_, ?_, ?_⟩
  · unfold macosCursorEvent
    rw [sub_div, div_self hh]
  all_goals
    simp only [x11CursorEvent, win32CursorEvent, macosCursorEvent,
      WindowEvent.cursorMovement.injEq]
    norm_num

/-- Witness for C1 at the concrete size `(300, 200)` with the macOS
bottom-left location `(0, 200)` (the top-left corner). -/
theorem cursor_normalization_witness :
    macosCursorEvent (300, 200) (0, 200) =
      .cursorMovement ((0 : ℚ) / ((300 : Int) : ℚ))
        ((((200 : Int) : ℚ) - 200) / ((200 : Int) : ℚ)) :=
  (cursor_normalization (300, 200) 0 0 (0, 200) (by norm_num)).2.2.1

/-- Claim C2: `poll_event` is FIFO.  Draining a channel after notifications
`a` then `b` were forwarded returns everything already buffered, then `a`,
then `b`; and running the Win32 window procedure over any sequence of
native messages leaves the queue holding the translated events in exactly
the native notification order. -/
theorem poll_event_fifo (size_xy : Int × Int) (c : Channel)
    (a b : WindowEvent) (msgs : List (Nat × Int × Int)) :
    drainChan ((c.send a).send b) = drainChan c ++ [a, b] ∧
    (runWndProc size_xy c msgs).buffer =
      c.buffer ++ msgs.flatMap (fun m => wndProcEvents size_xy m.1 m.2) := by
  constructor
  · rw [drainChan_eq_buffer, drainChan_eq_buffer]
    simp [Channel.send]
  · exact runWndProc_buffer size_xy c msgs

/-- Counterexample for C3: on the macOS backend, native button id 4 — a
button outside the left/right/middle set — is NOT silently discarded: its
press handler (`other_mouse_down`, reached for every `buttonNumber ≥ 2`)
enqueues a `CursorMovement` followed by `MouseClick(Middle)`, so events are
emitted and the queue changes. -/
theorem other_button_not_discarded_counterexample :
    macosHandlerOutput (300, 200) (.down 4 (0, 0)) =
      [WindowEvent.cursorMovement 0 1, WindowEvent.mouseClick MouseButton.middle] ∧
    macosHandlerOutput (300, 200) (.down 4 (0, 0)) ≠ [] := by
  have h : macosHandlerOutput (300, 200) (.down 4 (0, 0)) =
      [WindowEvent.cursorMovement 0 1, WindowEvent.mouseClick MouseButton.middle] := by
    simp only [macosHandlerOutput, macosCursorEvent, macosButtonOf,
      List.cons.injEq, WindowEvent.cursorMovement.injEq]
    norm_num
  exact ⟨h, by rw [h]; simp⟩

/-- Claim C3 (amended): on the X11 backend, button details 1/2/3 map to
Left/Middle/Right and any other detail yields no event (the poll loop skips
the notification, leaving the remaining buffer as if the notification had
not occurred); on the Win32 backend, only the six L/R/M button messages
produce button events and any other message id produces nothing; on the
macOS backend, however, button ids other than left and right (every
`buttonNumber ≥ 2`) are all mapped to Middle — a press produces a
`CursorMovement` followed by `MouseClick(Middle)` and a release produces a
`CursorMovement` followed by `MouseRelease(Middle)` — so unrecognized
buttons are discarded on X11 and Win32 but not on macOS. -/
theorem button_translation_amended (size_xy : Int × Int)
    (d n umsg : Nat) (lp : Int × Int) (loc : ℚ × ℚ)
    (rest : List (Except String X11Event))
    (hd : d ≠ 1 ∧ d ≠ 2 ∧ d ≠ 3)
    (hu : umsg ≠ WM_MOUSEMOVE ∧ umsg ≠ WM_LBUTTONDOWN ∧ umsg ≠ WM_LBUTTONUP ∧
      umsg ≠ WM_RBUTTONDOWN ∧ umsg ≠ WM_RBUTTONUP ∧ umsg ≠ WM_MBUTTONDOWN ∧
      umsg ≠ WM_MBUTTONUP)
    (hn : 2 ≤ n) :
    convert_mouse_button_detail 1 = some .left ∧
    convert_mouse_button_detail 2 = some .middle ∧
    convert_mouse_button_detail 3 = some .right ∧
    convert_mouse_button_detail d = none ∧
    pollEventX11 size_xy (.ok (.buttonPress d) :: rest) = pollEventX11 size_xy rest ∧
    pollEventX11 size_xy (.ok (.buttonRelease d) :: rest) = pollEventX11 size_xy rest ∧
    wndProcEvents size_xy umsg lp = [] ∧
    macosHandlerOutput size_xy (.down n loc) =
      [macosCursorEvent size_xy loc, .mouseClick .middle] ∧
    macosHandlerOutput size_xy (.up n loc) =
      [macosCursorEvent size_xy loc, .mouseRelease .middle] := by
  obtain ⟨h1, h2, h3⟩ := hd
  have hconv : convert_mouse_button_detail d = none := by
    match d with
    | 0 => rfl
    | 1 => exact absurd rfl h1
    | 2 => exact absurd rfl h2
    | 3 => exact absurd rfl h3
    | (k + 4) => rfl
  have hmid : macosButtonOf n = .middle := by
    unfold macosButtonOf
    rw [if_neg (by omega), if_neg (by omega)]
  refine ⟨rfl, rfl, rfl, hconv, ?_, ?_, ?_, ?_, ?_⟩
  · simp [pollEventX11, translateX11, hconv]
  · simp [pollEventX11, translateX11, hconv]
  · unfold wndProcEvents
    rw [if_neg hu.1, if_neg hu.2.1, if_neg hu.2.2.1, if_neg hu.2.2.2.1,
      if_neg hu.2.2.2.2.1, if_neg hu.2.2.2.2.2.1, if_neg hu.2.2.2.2.2.2]
  · rw [macosHandlerOutput, hmid]
  · rw [macosHandlerOutput, hmid]

/-- Witness for C3 (amended) at detail 8, `WM_XBUTTONDOWN` (0x020B = 523),
and macOS button number 4. -/
theorem button_translation_amended_witness :
    wndProcEvents (300, 200) 523 (0, 0) = [] :=
  (button_translation_amended (300, 200) 8 4 523 (0, 0) (0, 0) []
    (by decide) (by decide) (by decide)).2.2.2.2.2.2.1

/-- Claim C4: the X11 `poll_event` is a total function (it never blocks and
returns `Option`, surfacing no error): its result is exactly the first
translatable notification among the `Ok` prefix of the connection buffer —
a native query failure truncates the scan and yields `none` (the failure is
only logged), untranslatable notification kinds are skipped, and an empty
buffer yields `none`. -/
theorem poll_event_total_x11 (size_xy : Int × Int)
    (buf rest : List (Except String X11Event)) (msg : String) :
    (pollEventX11 size_xy buf).1 =
      ((buf.takeWhile isOkOutcome).filterMap
        (fun o => (okEvent o).bind (translateX11 size_xy))).head? ∧
    pollEventX11 size_xy [] = (none, []) ∧
    pollEventX11 size_xy (.error msg :: rest) = (none, rest) := by
  refine ⟨?_, rfl, rfl⟩
  induction buf with
  | nil => rfl
  | cons o tail ih =>
    cases o with
    | error e =>
      simp [pollEventX11, List.takeWhile, isOkOutcome]
    | ok ev =>
      cases hev : translateX11 size_xy ev with
      | some w =>
        simp [pollEventX11, hev, List.takeWhile, isOkOutcome, okEvent]
      | none =>
        simp [pollEventX11, hev, List.takeWhile, isOkOutcome, okEvent, ih]

/-- Counterexample for C5: the claim says a width exceeding the platform's
maximum, 32767 on the X11 backend, fails with `InvalidWindowSize`; but the
X11 build converts to `u16`, whose range is `0 ..= 65535`, so width 32768 —
which exceeds 32767 — is accepted and no error is produced.  (Moreover the
error type `InvalidSizeError` carries only the requested size; it has no
field for the valid bound.) -/
theorem size_bound_counterexample :
    (32767 : Int) < 32768 ∧
    childWindowValidateSize .unixLike (32768, 200) = Except.ok (32768, 200) := by
  exact ⟨by norm_num, rfl⟩

/-- Claim C5 (amended): the X11 backend validates each `i32` size coordinate
by conversion to `u16`, so the valid range is `0 ..= 65535` (not 32767):
`setup` with size `(-1, 200)` fails with an `InvalidWindowSize` error, and
in general validation fails exactly when a coordinate is negative or above
65535; the resulting error carries only the requested size (the
`InvalidSizeError` payload has no field for the valid bound) together with
the backend identity. -/
theorem invalid_size_amended (os : TargetOs) (w h : Int) :
    childWindowValidateSize os (w, h) =
      (if (0 ≤ w ∧ w ≤ 65535) ∧ (0 ≤ h ∧ h ≤ 65535)
       then Except.ok (w.toNat, h.toNat)
       else Except.error (SetupError.new os (.invalidSize (w, h)))) ∧
    childWindowValidateSize .unixLike (-1, 200) =
      Except.error ⟨.invalidSize (-1, 200), .x11, none⟩ := by
  refine ⟨?_, rfl⟩
  unfold childWindowValidateSize i32ToU16
  by_cases hw : 0 ≤ w ∧ w ≤ 65535
  · by_cases hh : 0 ≤ h ∧ h ≤ 65535
    · simp [hw, hh]
    · simp [hw, hh]
  · simp [hw]

/-- Counterexample for C6: on the macOS backend a null parent does NOT fail
with an `InvalidParent` error — `EditorWindowImpl::build` returns
`Error::Other` with the message `"invalid parent (null pointer)"`, an
Other-kind error. -/
theorem null_parent_macos_counterexample :
    macosBuildParentCheck 0 =
      Except.error ⟨ErrorKind.otherKind, "invalid parent (null pointer)", "Cocoa"⟩ ∧
    ErrorKind.otherKind ≠ ErrorKind.invalidParent :=
  ⟨rfl, by decide⟩

/-- Claim C6 (amended): only the X11 backend reports an invalid parent as an
InvalidParent error — when the display server answers the `create_window`
request with a `Window`-kind protocol error, the build returns a
`SetupError` whose source is `InvalidParentError` and whose backend is X11
(`"null"` is recorded for a null parent).  On macOS a null parent is
rejected with an Other-kind error reading `"invalid parent (null pointer)"`
naming the Cocoa backend, and on Windows an invalid parent handle is
rejected with an Other-kind error reading `"invalid parent hwnd supplied"`
naming the WinApi backend; each error names its backend, but neither is an
InvalidParent-kind error. -/
theorem invalid_parent_amended (parent createSeq : Nat) (err : X11ProtocolError)
    (hseq : err.sequence = createSeq % 65536) (hkind : err.errorKind = .window) :
    unixClassifyBuildError parent createSeq err =
      SetupError.new .unixLike (InvalidParentError.new parent) ∧
    (unixClassifyBuildError parent createSeq err).backend = Backend.x11 ∧
    InvalidParentError.new 0 = .invalidParent "null" ∧
    macosBuildParentCheck 0 =
      Except.error ⟨.otherKind, "invalid parent (null pointer)", "Cocoa"⟩ ∧
    windowsBuildParentError =
      ⟨.otherKind, "invalid parent hwnd supplied", "WinApi"⟩ := by
  have hc : unixClassifyBuildError parent createSeq err =
      SetupError.new .unixLike (InvalidParentError.new parent) := by
    unfold unixClassifyBuildError
    rw [if_pos ⟨hseq, hkind⟩]
  exact ⟨hc, by rw [hc]; rfl, rfl, rfl, rfl⟩

/-- Witness for C6 (amended) with a null parent and an X11 `Window` error on
the `create_window` request with sequence number 5. -/
theorem invalid_parent_amended_witness :
    unixClassifyBuildError 0 5 ⟨5, .window⟩ =
      SetupError.new .unixLike (InvalidParentError.new 0) :=
  (invalid_parent_amended 0 5 ⟨5, .window⟩ (by decide) rfl).1

/-- Claim C7 is contradicted by the code: `src/lib.rs` assigns
`CURRENT_BACKEND = Backend::X11` under all three `cfg` blocks, so a
`SetupError` built on macOS or Windows carries backend `X11`, not `AppKit`
or `Win32` — `backend()` does not identify the originating platform on
those targets. -/
theorem current_backend_is_x11_everywhere :
    CURRENT_BACKEND .macos = Backend.x11 ∧
    CURRENT_BACKEND .windows = Backend.x11 ∧
    (SetupError.new .macos (.nativeMsg "e")).backend ≠ Backend.appKit ∧
    (SetupError.new .windows (.nativeMsg "e")).backend ≠ Backend.win32 :=
  ⟨rfl, rfl, by decide, by decide⟩

/-- Claim C8 is contradicted by the code: the facade
`EditorWindow(EditorWindowImpl, EventSourceImpl)` in `src/platform/mod.rs`
drops its fields in declaration order, releasing the Window Backend
resources (field 0) BEFORE the Event Capture resources (field 1) — the
reverse of the claimed order — while the composite in
`src/platform/windows/mod.rs` documents and implements the claimed
capture-first order. -/
theorem facade_drop_order_window_first :
    editorWindowDropOrder = [Res.windowBackend, Res.eventCapture] ∧
    editorWindowDropOrder ≠ [Res.eventCapture, Res.windowBackend] ∧
    windowsCompositeDropOrder = [Res.eventCapture, Res.windowBackend] := by
  refine ⟨rfl, by decide, rfl⟩

/-- Building windows while the class is already live only increments the
reference count: no registration happens. -/
lemma buildN_live (n k r u : Nat) :
    buildN n ⟨k + 1, true, r, u⟩ = ⟨k + 1 + n, true, r, u⟩ := by
  induction n generalizing k with
  | zero => rfl
  | succ m ih =>
    have hg : getWindowClass ⟨k + 1, true, r, u⟩ = ⟨k + 1 + 1, true, r, u⟩ := by
      unfold getWindowClass
      rw [if_pos (Nat.succ_pos k)]
    have harith : k + 1 + 1 + m = k + 1 + (m + 1) := by omega
    show buildN m (getWindowClass ⟨k + 1, true, r, u⟩) = _
    rw [hg, ih (k + 1), harith]

/-- Dropping all `n + 1` live references unregisters the class exactly
once. -/
lemma dropN_all (n r u : Nat) :
    dropN (n + 1) ⟨n + 1, true, r, u⟩ = ⟨0, false, r, u + 1⟩ := by
  induction n with
  | zero => rfl
  | succ m ih =>
    show dropN (m + 1) (dropWindowClassRef ⟨m + 2, true, r, u⟩) = _
    rw [show dropWindowClassRef ⟨m + 2, true, r, u⟩ = ⟨m + 1, true, r, u⟩ from rfl]
    exact ih

/-- Claim C9: starting from the pre-open state, building `n + 1` windows
registers the shared window class exactly once (the first build registers;
every later build shares the live class without a new registration), and
tearing all of them down unregisters it exactly once, when the last
reference drops, returning the reference count to its pre-open value 0 —
in particular for the two-window scenario. -/
theorem window_class_refcount (n : Nat) :
    buildN (n + 1) ClassState.initial = ⟨n + 1, true, 1, 0⟩ ∧
    dropN (n + 1) (buildN (n + 1) ClassState.initial) = ⟨0, false, 1, 1⟩ ∧
    dropN 2 (buildN 2 ClassState.initial) =
      ⟨ClassState.initial.live, false, 1, 1⟩ := by
  have hb : buildN (n + 1) ClassState.initial = ⟨n + 1, true, 1, 0⟩ := by
    have hg0 : getWindowClass ClassState.initial = ⟨0 + 1, true, 1, 0⟩ := rfl
    have harith : 0 + 1 + n = n + 1 := by omega
    show buildN n (getWindowClass ClassState.initial) = _
    rw [hg0, buildN_live n 0 1 0, harith]
  refine ⟨hb, ?_, rfl⟩
  rw [hb]
  exact dropN_all n 1 0

/-- Claim C10: on the macOS backend, every `MouseClick` or `MouseRelease`
in the queue produced by any sequence of native notifications comes from a
button-transition notification (a press or release with some button number
`n` and location `loc` occurring in the sequence, whose button value
matches the queued event), and is immediately preceded in the queue by the
`CursorMovement` carrying the position of that button transition —
`macosCursorEvent size_xy loc` for that same `loc` — because each button
handler first sends the cursor event at the notification's own location
and then the button event. -/
theorem macos_button_preceded_by_cursor (size_xy : Int × Int)
    (inputs : List MacosInput) (i : Nat) (e : WindowEvent)
    (he : (runMacos size_xy inputs).get? i = some e)
    (hb : isButtonEvent e = true) :
    0 < i ∧ ∃ inp ∈ inputs, ∃ loc : ℚ × ℚ, ∃ n : Nat,
      ((inp = MacosInput.down n loc ∧ e = .mouseClick (macosButtonOf n)) ∨
       (inp = MacosInput.up n loc ∧ e = .mouseRelease (macosButtonOf n))) ∧
      (runMacos size_xy inputs).get? (i - 1) =
        some (macosCursorEvent size_xy loc) := by
  induction inputs generalizing i with
  | nil => simp [runMacos] at he
  | cons inp rest ih =>
    cases inp with
    | down nn loc =>
      rcases i with _ | _ | j
      · simp [runMacos, macosHandlerOutput] at he
        rw [← he] at hb
        simp [isButtonEvent, macosCursorEvent] at hb
      · simp [runMacos, macosHandlerOutput] at he
        refine ⟨by omega, MacosInput.down nn loc, List.mem_cons_self _ _,
          loc, nn, Or.inl ⟨rfl, he.symm⟩, ?_⟩
        simp [runMacos, macosHandlerOutput]
      · have hj := ih j (by simpa [runMacos, macosHandlerOutput] using he)
        obtain ⟨hpos, inp2, hmem, loc2, n2, hdisj, htail⟩ := hj
        obtain ⟨j2, rfl⟩ : ∃ j2, j = j2 + 1 := ⟨j - 1, by omega⟩
        refine ⟨by omega, inp2, List.mem_cons_of_mem _ hmem, loc2, n2, hdisj, ?_⟩
        have htail2 : (runMacos size_xy rest).get? j2 =
            some (macosCursorEvent size_xy loc2) := by simpa using htail
        simpa [runMacos, macosHandlerOutput] using htail2
    | up nn loc =>
      rcases i with _ | _ | j
      · simp [runMacos, macosHandlerOutput] at he
        rw [← he] at hb
        simp [isButtonEvent, macosCursorEvent] at hb
      · simp [runMacos, macosHandlerOutput] at he
        refine ⟨by omega, MacosInput.up nn loc, List.mem_cons_self _ _,
          loc, nn, Or.inr ⟨rfl, he.symm⟩, ?_⟩
        simp [runMacos, macosHandlerOutput]
      · have hj := ih j (by simpa [runMacos, macosHandlerOutput] using he)
        obtain ⟨hpos, inp2, hmem, loc2, n2, hdisj, htail⟩ := hj
        obtain ⟨j2, rfl⟩ : ∃ j2, j = j2 + 1 := ⟨j - 1, by omega⟩
        refine ⟨by omega, inp2, List.mem_cons_of_mem _ hmem, loc2, n2, hdisj, ?_⟩
        have htail2 : (runMacos size_xy rest).get? j2 =
            some (macosCursorEvent size_xy loc2) := by simpa using htail
        simpa [runMacos, macosHandlerOutput] using htail2
    | moved loc =>
      rcases i with _ | j
      · simp [runMacos, macosHandlerOutput] at he
        rw [← he] at hb
        simp [isButtonEvent, macosCursorEvent] at hb
      · have hj := ih j (by simpa [runMacos, macosHandlerOutput] using he)
        obtain ⟨hpos, inp2, hmem, loc2, n2, hdisj, htail⟩ := hj
        obtain ⟨j2, rfl⟩ : ∃ j2, j = j2 + 1 := ⟨j - 1, by omega⟩
        refine ⟨by omega, inp2, List.mem_cons_of_mem _ hmem, loc2, n2, hdisj, ?_⟩
        have htail2 : (runMacos size_xy rest).get? j2 =
            some (macosCursorEvent size_xy loc2) := by simpa using htail
        simpa [runMacos, macosHandlerOutput] using htail2

/-- Witness for C10: after a single left-button press at location
`(10, 20)`, the button event at index 1 originates from that press and is
preceded at index 0 by the cursor-movement event at the press's own
location. -/
theorem macos_button_preceded_by_cursor_witness :
    0 < 1 ∧ ∃ inp ∈ [MacosInput.down 0 (10, 20)], ∃ loc : ℚ × ℚ, ∃ n : Nat,
      ((inp = MacosInput.down n loc ∧
          WindowEvent.mouseClick MouseButton.left = .mouseClick (macosButtonOf n)) ∨
       (inp = MacosInput.up n loc ∧
          WindowEvent.mouseClick MouseButton.left = .mouseRelease (macosButtonOf n))) ∧
      (runMacos (300, 200) [MacosInput.down 0 (10, 20)]).get? 0 =
        some (macosCursorEvent (300, 200) loc) :=
  macos_button_preceded_by_cursor (300, 200) [.down 0 (10, 20)] 1
    (.mouseClick .left) rfl rfl

end VstWindow
